import Mathlib

/-
Verification development for the Waygate MCP plugin/bridge subsystem.

Shallow embedding of:
  - src/source/plugins/mcp_bridge_plugin.py   (MCPBridgePlugin)
  - src/source/mcp_integration.py             (MCPIntegrationManager)
  - src/source-backup-092925/plugins/plugin_loader.py (PluginLoader)

External effects (subprocess pipes, HTTP requests, imports, the database)
are modelled by explicit environment records supplied to each operation,
and every transport interaction an operation performs is returned as an
explicit event trace.  Python exceptions are modelled by the `PyError`
type threaded through `Except`; `try/except` blocks of the source become
`match` on that `Except`.
-/

set_option maxHeartbeats 1000000

namespace Waygate

/-- JSON values, as produced by `json.loads` / consumed by `json.dumps`.
Python dicts are association lists in insertion order. -/
inductive JVal where
  | null : JVal
  | bool : Bool → JVal
  | num : Int → JVal
  | str : String → JVal
  | arr : List JVal → JVal
  | obj : List (String × JVal) → JVal

mutual

/-- Model of Python `repr` on JSON-shaped values (used by `str` on
containers). -/
def JVal.pyRepr : JVal → String
  | .null => "None"
  | .bool true => "True"
  | .bool false => "False"
  | .num n => toString n
  | .str s => "\x27" ++ s ++ "\x27"
  | .arr xs => "[" ++ JVal.pyReprList xs ++ "]"
  | .obj fs => "\x7b" ++ JVal.pyReprFields fs ++ "\x7d"

/-- `repr` of a list of elements, comma separated. -/
def JVal.pyReprList : List JVal → String
  | [] => ""
  | [x] => JVal.pyRepr x
  | x :: y :: xs => JVal.pyRepr x ++ ", " ++ JVal.pyReprList (y :: xs)

/-- `repr` of dict entries, comma separated. -/
def JVal.pyReprFields : List (String × JVal) → String
  | [] => ""
  | [(k, v)] => "\x27" ++ k ++ "\x27: " ++ JVal.pyRepr v
  | (k, v) :: f :: fs =>
      "\x27" ++ k ++ "\x27: " ++ JVal.pyRepr v ++ ", " ++ JVal.pyReprFields (f :: fs)

end

/-- Model of Python `str()`: identity on strings, `repr`-style otherwise. -/
def JVal.pyToStr : JVal → String
  | .str s => s
  | v => v.pyRepr

/-- A JSON array coerced to a list (external catalogs are modelled as
well-formed JSON arrays). -/
def JVal.asArr : JVal → List JVal
  | .arr xs => xs
  | _ => []

/-- Python exceptions as they cross the boundaries modelled here.
`mcpComm` is `MCPCommunicationError`; `other` is any other exception.
Both carry `str(e)`. -/
inductive PyError where
  | mcpComm : String → PyError
  | other : String → PyError
deriving Repr, DecidableEq

/-- `str(e)` of a modelled exception. -/
def PyError.msg : PyError → String
  | .mcpComm m => m
  | .other m => m

/-- Keyword parameters / JSON objects passed to tools. -/
abbrev Params := List (String × JVal)

/-- Python dict assignment `d[k] = v`: replace the binding if the key is
present (dict keys are unique, so replacing the first match suffices),
otherwise append it. -/
def dictSet {β : Type} : List (String × β) → String → β → List (String × β)
  | [], k, v => [(k, v)]
  | (k2, v2) :: rest, k, v =>
    if k2 = k then (k, v) :: rest else (k2, v2) :: dictSet rest k v

/-- The result dictionaries built by `MCPBridgePlugin.execute`,
`MCPIntegrationManager.execute_mcp_tool` and plugin `execute` methods.
Every key such a dict can carry in the embedded code is a field;
a `none` field is an absent key. -/
structure ExecResult where
  success : Bool
  error : Option String := none
  result : Option JVal := none
  tool : Option String := none
  parameters : Option Params := none
  mcp_server : Option String := none
  server_type : Option String := none
  available_servers : Option (List String) := none

/-- `self.mcp_status` of `MCPBridgePlugin.__init__`. -/
structure MCPStatus where
  connected : Bool
  last_sync : Option Nat
  tool_count : Nat
  error_count : Nat
  last_error : Option String
deriving Repr, DecidableEq

/-- The subprocess handle `self.process`; `exited` models
`process.returncode is not None`. -/
structure Proc where
  exited : Bool
deriving Repr, DecidableEq

/-- A function attribute of an imported Python module. `call` is the
behaviour of invoking it with keyword arguments (it may raise); `doc`
is `__doc__`. Awaiting a coroutine is transparent in the model: `call`
already yields the awaited value. -/
structure PyFunc where
  isCoroutine : Bool
  doc : Option String
  call : Params → Except PyError JVal

/-- An imported Python module used by the `python` transport.
`funcs` are its function attributes by name; `getToolsImpl` is the
behaviour of `module.get_tools()` when that attribute exists.  The model
assumes tool names looked up via `hasattr` are resolved in `funcs`. -/
structure PyModule where
  funcs : List (String × PyFunc)
  getToolsImpl : Option (Except PyError (List JVal))

/-- `self.mcp_client`: an httpx client, an imported module, or the
`"subprocess"` marker string. -/
inductive MCPClient where
  | http : MCPClient
  | python : PyModule → MCPClient
  | subprocessMarker : MCPClient

/-- The configuration dict `self.mcp_config`.  Only the keys the
embedded code reads are modelled; an absent key is `none`. -/
structure MCPConfig where
  communication_method : Option String := none
  base_url : Option String := none
  module_name : Option String := none
  credentials : Option (List (String × String)) := none

/-- The mutable state of one `MCPBridgePlugin` instance. -/
structure BridgeState where
  mcp_config : MCPConfig
  mcp_client : Option MCPClient
  credentials : List (String × String)
  mcp_tools : List JVal
  communication_method : String
  process : Option Proc
  is_initialized : Bool
  mcp_status : MCPStatus

/-- The fresh state built by `MCPBridgePlugin.__init__(mcp_config)`. -/
def BridgeState.mk0 (cfg : MCPConfig) : BridgeState where
  mcp_config := cfg
  mcp_client := none
  credentials := []
  mcp_tools := []
  communication_method := "stdio"
  process := none
  is_initialized := false
  mcp_status :=
    { connected := false
      last_sync := none
      tool_count := 0
      error_count := 0
      last_error := none }

/-- One JSON-RPC-shaped request line written to a stdio pipe. -/
structure JsonRpcMsg where
  jsonrpc : String
  id : String
  method : String
  params : Option JVal

/-- Transport interactions an adapter operation performs, in order. -/
inductive TransportEvent where
  | stdioWrite : JsonRpcMsg → TransportEvent
  | stdioRead : TransportEvent
  | httpPost : String → JVal → TransportEvent
  | httpGet : String → TransportEvent
  | subprocSpawn : List String → TransportEvent
  | pyCall : String → Params → TransportEvent

/-- Outcome of running a one-shot subprocess to completion
(`create_subprocess_exec` + `communicate`). `stdoutParsed` is
`json.loads(stdout)` when it parses. -/
structure SubprocResult where
  returncode : Int
  stdoutParsed : Option JVal
  stdoutRaw : String
  stderr : String

/-- The external world one `execute` call interacts with:
the parsed stdio response object (or the exception raised while
reading/parsing it), the outcome of `POST /tools/execute`
(`raise_for_status` failures raise), the behaviour of one-shot
subprocess runs, `get_mcp_server_command()`, and the clock. -/
structure TransportEnv where
  now : Nat
  stdioResponse : Except PyError (List (String × JVal))
  httpPostResult : Except PyError JVal
  subprocRun : List String → SubprocResult
  serverCommand : List String

namespace MCPBridgePlugin

/-- `MCPBridgePlugin._execute_stdio_tool`. -/
def execStdioTool (st : BridgeState) (env : TransportEnv) (tool : String)
    (parameters : Params) : Except PyError ExecResult × List TransportEvent :=
  match st.process with
  | none => (.error (.mcpComm "MCP server process not running"), [])
  | some p =>
    if p.exited then
      (.error (.mcpComm "MCP server process not running"), [])
    else
      let message : JsonRpcMsg :=
        { jsonrpc := "2.0"
          id := "waygate_" ++ toString env.now
          method := "tools/call"
          params := some (.obj [("name", .str tool), ("arguments", .obj parameters)]) }
      let evs : List TransportEvent := [.stdioWrite message, .stdioRead]
      match env.stdioResponse with
      | .error e => (.error e, evs)
      | .ok fields =>
        match fields.lookup "error" with
        | some ev => (.error (.mcpComm ("MCP server error: " ++ ev.pyToStr)), evs)
        | none =>
          (.ok { success := true
                 result := some ((fields.lookup "result").getD (.obj []))
                 tool := some tool }, evs)

/-- `MCPBridgePlugin._execute_http_tool`. -/
def execHttpTool (st : BridgeState) (env : TransportEnv) (tool : String)
    (parameters : Params) : Except PyError ExecResult × List TransportEvent :=
  match st.mcp_client with
  | none => (.error (.mcpComm "HTTP MCP client not initialized"), [])
  | some .http =>
    let payload : JVal := .obj [("tool", .str tool), ("parameters", .obj parameters)]
    let evs : List TransportEvent := [.httpPost "/tools/execute" payload]
    match env.httpPostResult with
    | .error e => (.error e, evs)
    | .ok body =>
      (.ok { success := true, result := some body, tool := some tool }, evs)
  | some _ =>
    -- a non-httpx object bound as client: `self.mcp_client.post` raises
    (.error (.other "AttributeError: post"), [])

/-- The function attributes `hasattr`/`getattr` can resolve on the bound
client object (only module clients expose tool functions). -/
def clientFuncs : MCPClient → List (String × PyFunc)
  | .python m => m.funcs
  | _ => []

/-- `MCPBridgePlugin._execute_python_tool`. -/
def execPythonTool (st : BridgeState) (tool : String) (parameters : Params) :
    Except PyError ExecResult × List TransportEvent :=
  match st.mcp_client with
  | none => (.error (.mcpComm "Python MCP client not initialized"), [])
  | some c =>
    match (clientFuncs c).lookup tool with
    | some f =>
      let evs : List TransportEvent := [.pyCall tool parameters]
      match f.call parameters with
      | .error e => (.error e, evs)
      | .ok v =>
        (.ok { success := true, result := some v, tool := some tool }, evs)
    | none =>
      (.error (.mcpComm ("Tool not found in Python module: " ++ tool)), [])

/-- `MCPBridgePlugin._execute_subprocess_tool`. -/
def execSubprocessTool (env : TransportEnv) (tool : String)
    (parameters : Params) : Except PyError ExecResult × List TransportEvent :=
  let command :=
    env.serverCommand ++ ["--tool", tool] ++
      (parameters.map (fun kv => ["--" ++ kv.1, kv.2.pyToStr])).flatten
  let evs : List TransportEvent := [.subprocSpawn command]
  let r := env.subprocRun command
  if r.returncode ≠ 0 then
    (.error (.mcpComm ("Subprocess execution failed: " ++ r.stderr)), evs)
  else
    let result :=
      match r.stdoutParsed with
      | some j => j
      | none => .obj [("output", .str r.stdoutRaw)]
    (.ok { success := true, result := some result, tool := some tool }, evs)

/-- The body of the `try` block of `MCPBridgePlugin.execute`: dispatch on
`self.communication_method`. -/
def executeStep (st : BridgeState) (env : TransportEnv) (tool : String)
    (parameters : Params) : Except PyError ExecResult × List TransportEvent :=
  if st.communication_method = "stdio" then
    execStdioTool st env tool parameters
  else if st.communication_method = "http" then
    execHttpTool st env tool parameters
  else if st.communication_method = "python" then
    execPythonTool st tool parameters
  else if st.communication_method = "subprocess" then
    execSubprocessTool env tool parameters
  else
    (.error (.mcpComm ("Unsupported communication method: " ++ st.communication_method)), [])

/-- `MCPBridgePlugin.execute`: returns the result dict, the successor
state, and the transport events performed.  The function is total: every
exception of the dispatched step is caught by the `except` clause and
converted into a failure dict while bumping the status counters. -/
def execute (st : BridgeState) (env : TransportEnv) (tool : String)
    (parameters : Params) : ExecResult × BridgeState × List TransportEvent :=
  if st.is_initialized = false then
    ({ success := false, error := some "MCP bridge not initialized" }, st, [])
  else
    match executeStep st env tool parameters with
    | (.ok r, evs) => (r, st, evs)
    | (.error e, evs) =>
      let errorMsg := "MCP tool execution failed: " ++ e.msg
      ({ success := false
         error := some errorMsg
         tool := some tool
         parameters := some parameters },
       { st with
           mcp_status :=
             { st.mcp_status with
                 error_count := st.mcp_status.error_count + 1
                 last_error := some errorMsg } },
       evs)

end MCPBridgePlugin

/-- Python `value.get(k, default)` on a JSON value: raises
`AttributeError` when the value is not a dict. -/
def JVal.dictGetD (v : JVal) (k : String) (d : JVal) : Except PyError JVal :=
  match v with
  | .obj fs => .ok ((fs.lookup k).getD d)
  | _ => .error (.other "AttributeError: get")

/-- The external world a catalog sync interacts with: the parsed
`tools/list` stdio response object (or the exception raised while
reading/parsing it), the outcome of `GET /tools`, one-shot subprocess
behaviour, and `get_mcp_server_command()`. -/
structure SyncEnv where
  stdioListResponse : Except PyError (List (String × JVal))
  httpGetToolsResult : Except PyError JVal
  subprocRun : List String → SubprocResult
  serverCommand : List String

namespace MCPBridgePlugin

/-- `MCPBridgePlugin._get_stdio_tools`. -/
def getStdioTools (st : BridgeState) (env : SyncEnv) :
    Except PyError (List JVal) × List TransportEvent :=
  match st.process with
  | none => (.ok [], [])
  | some p =>
    if p.exited then (.ok [], [])
    else
      let message : JsonRpcMsg :=
        { jsonrpc := "2.0", id := "waygate_tools_list", method := "tools/list", params := none }
      let evs : List TransportEvent := [.stdioWrite message, .stdioRead]
      match env.stdioListResponse with
      | .error e => (.error e, evs)
      | .ok fields =>
        match ((fields.lookup "result").getD (.obj [])).dictGetD "tools" (.arr []) with
        | .error e => (.error e, evs)
        | .ok t => (.ok t.asArr, evs)

/-- `MCPBridgePlugin._get_http_tools`. -/
def getHttpTools (st : BridgeState) (env : SyncEnv) :
    Except PyError (List JVal) × List TransportEvent :=
  match st.mcp_client with
  | none => (.ok [], [])
  | some .http =>
    let evs : List TransportEvent := [.httpGet "/tools"]
    match env.httpGetToolsResult with
    | .error e => (.error e, evs)
    | .ok body =>
      match body.dictGetD "tools" (.arr []) with
      | .error e => (.error e, evs)
      | .ok t => (.ok t.asArr, evs)
  | some _ => (.error (.other "AttributeError: get"), [])

/-- The catalog derived by `inspect.getmembers` reflection over a
module's public (non-underscore-prefixed) functions; an empty or
missing `__doc__` falls back to `"<name> function"`. -/
def reflectTools (funcs : List (String × PyFunc)) : List JVal :=
  (funcs.filter (fun kv => !kv.1.startsWith "_")).map (fun kv =>
    let d := kv.2.doc.getD ""
    .obj [("name", .str kv.1),
          ("description", .str (if d = "" then kv.1 ++ " function" else d)),
          ("inputSchema", .obj [("type", .str "object"), ("properties", .obj [])])])

/-- `MCPBridgePlugin._get_python_tools`.  `inspect.getmembers(...,
inspect.isfunction)` finds no plain functions on non-module clients. -/
def getPythonTools (st : BridgeState) :
    Except PyError (List JVal) × List TransportEvent :=
  match st.mcp_client with
  | none => (.ok [], [])
  | some c =>
    match c with
    | .python m =>
      match m.getToolsImpl with
      | some r => (r, [.pyCall "get_tools" []])
      | none => (.ok (reflectTools m.funcs), [])
    | _ => (.ok (reflectTools []), [])

/-- `MCPBridgePlugin._get_subprocess_tools`.  Only `JSONDecodeError` is
caught by the inner handler; an `AttributeError` from `.get` on a
non-dict parse result propagates. -/
def getSubprocessTools (env : SyncEnv) :
    Except PyError (List JVal) × List TransportEvent :=
  let command := env.serverCommand ++ ["--list-tools"]
  let evs : List TransportEvent := [.subprocSpawn command]
  let r := env.subprocRun command
  if r.returncode ≠ 0 then (.ok [], evs)
  else
    match r.stdoutParsed with
    | none => (.ok [], evs)
    | some j =>
      match j.dictGetD "tools" (.arr []) with
      | .error e => (.error e, evs)
      | .ok t => (.ok t.asArr, evs)

/-- The dispatch inside the `try` block of
`MCPBridgePlugin._sync_mcp_tools`. -/
def syncFetch (st : BridgeState) (env : SyncEnv) :
    Except PyError (List JVal) × List TransportEvent :=
  if st.communication_method = "stdio" then getStdioTools st env
  else if st.communication_method = "http" then getHttpTools st env
  else if st.communication_method = "python" then getPythonTools st
  else if st.communication_method = "subprocess" then getSubprocessTools env
  else (.ok [], [])

/-- `MCPBridgePlugin._sync_mcp_tools`: on a successful fetch the tool
list is replaced and `tool_count` updated; any exception of the fetch is
caught and the tool list set to `[]` (note `tool_count` is left as it
was on that path).  The function is total: the sync never raises. -/
def syncMcpTools (st : BridgeState) (env : SyncEnv) :
    BridgeState × List TransportEvent :=
  match syncFetch st env with
  | (.ok tools, evs) =>
    ({ st with
         mcp_tools := tools
         mcp_status := { st.mcp_status with tool_count := tools.length } }, evs)
  | (.error _, evs) => ({ st with mcp_tools := [] }, evs)

/-- The external world one `initialize()` call interacts with:
the clock, `get_mcp_server_command()`, whether the freshly spawned stdio
process was found dead at the ~1s liveness check (with its captured
stderr), the outcome of the HTTP `GET /health` probe, the outcome of
importing the configured module, and the sync environment. -/
structure InitEnv where
  now : Nat
  serverCommand : List String
  spawnEarlyExit : Option String
  healthProbe : Except PyError Unit
  importResult : Except String PyModule
  sync : SyncEnv

/-- `MCPBridgePlugin.initialize_mcp_client` (with the four
`_initialize_*_client` helpers inlined): sets
`self.communication_method`, opens the transport, and raises
`MCPCommunicationError` on any failure.  The HTTP client object is
bound before the health probe runs, and the spawned stdio process is
bound before the liveness check, exactly as in the source. -/
def initClient (st : BridgeState) (env : InitEnv) :
    BridgeState × Option PyError × List TransportEvent :=
  let method := st.mcp_config.communication_method.getD "stdio"
  let st := { st with communication_method := method }
  if method = "stdio" then
    let st := { st with process := some { exited := env.spawnEarlyExit.isSome } }
    match env.spawnEarlyExit with
    | some stderrOut =>
      (st, some (.mcpComm ("MCP server process failed to start: " ++ stderrOut)),
       [.subprocSpawn env.serverCommand])
    | none => (st, none, [.subprocSpawn env.serverCommand])
  else if method = "http" then
    match st.mcp_config.base_url with
    | none => (st, some (.mcpComm "base_url required for HTTP communication"), [])
    | some u =>
      if u = "" then
        (st, some (.mcpComm "base_url required for HTTP communication"), [])
      else
        let st := { st with mcp_client := some .http }
        match env.healthProbe with
        | .ok _ => (st, none, [.httpGet "/health"])
        | .error e =>
          (st, some (.mcpComm ("HTTP MCP server connection failed: " ++ e.msg)),
           [.httpGet "/health"])
  else if method = "python" then
    match st.mcp_config.module_name with
    | none => (st, some (.mcpComm "module_name required for Python communication"), [])
    | some m =>
      if m = "" then
        (st, some (.mcpComm "module_name required for Python communication"), [])
      else
        match env.importResult with
        | .ok mod => ({ st with mcp_client := some (.python mod) }, none, [])
        | .error emsg =>
          (st, some (.mcpComm ("Failed to import Python module: " ++ emsg)), [])
  else if method = "subprocess" then
    ({ st with mcp_client := some .subprocessMarker }, none, [])
  else
    (st, some (.mcpComm ("Unsupported communication method: " ++ method)), [])

/-- `MCPBridgePlugin.initialize`: load credentials, open the transport,
sync the catalog, set the Ready flags; any exception is caught, recorded
in `mcp_status` (`last_error` set, `error_count` incremented) and
re-raised as `MCPCommunicationError`. -/
def initBridge (st : BridgeState) (env : InitEnv) :
    BridgeState × Option PyError × List TransportEvent :=
  let st1 := { st with credentials := st.mcp_config.credentials.getD [] }
  match initClient st1 env with
  | (st2, some e, evs) =>
    let errorMsg := "MCP bridge initialization failed: " ++ e.msg
    ({ st2 with
         mcp_status :=
           { st2.mcp_status with
               last_error := some errorMsg
               error_count := st2.mcp_status.error_count + 1 } },
     some (.mcpComm errorMsg), evs)
  | (st2, none, evs) =>
    let (st3, evs2) := syncMcpTools st2 env.sync
    ({ st3 with
         is_initialized := true
         mcp_status := { st3.mcp_status with connected := true, last_sync := some env.now } },
     none, evs ++ evs2)

/-- `MCPBridgePlugin.get_tools`: lazily initializes on first call (an
initialization failure propagates), otherwise returns the in-memory
catalog unchanged. -/
def getTools (st : BridgeState) (env : InitEnv) :
    BridgeState × Except PyError (List JVal) :=
  if st.is_initialized then (st, .ok st.mcp_tools)
  else
    match initBridge st env with
    | (st2, none, _) => (st2, .ok st2.mcp_tools)
    | (st2, some e, _) => (st2, .error e)

/-- `MCPBridgePlugin.cleanup`: closes the transport and clears the Ready
flags; if closing the transport raises, the exception is caught and
logged, and the flag-clearing statements are skipped. -/
def cleanup (st : BridgeState) (cleanupRaises : Bool) : BridgeState :=
  if cleanupRaises then st
  else
    { st with
        process := st.process.map (fun _ => { exited := true })
        is_initialized := false
        mcp_status := { st.mcp_status with connected := false } }

/-- Python `self.mcp_config.update(config)` on the modelled keys: a key
present in the patch overrides the stored one. -/
def configUpdate (old patch : MCPConfig) : MCPConfig where
  communication_method := patch.communication_method <|> old.communication_method
  base_url := patch.base_url <|> old.base_url
  module_name := patch.module_name <|> old.module_name
  credentials := patch.credentials <|> old.credentials

/-- `MCPBridgePlugin.configure_mcp_server`: merge the new configuration,
and when already initialized run `cleanup()` then `initialize()` (whose
failure propagates). -/
def configureMcpServer (st : BridgeState) (patch : MCPConfig)
    (cleanupRaises : Bool) (env : InitEnv) :
    BridgeState × Option PyError × List TransportEvent :=
  let st1 := { st with mcp_config := configUpdate st.mcp_config patch }
  if st1.is_initialized then
    initBridge (cleanup st1 cleanupRaises) env
  else (st1, none, [])

/-- The dictionary returned by `MCPBridgePlugin.get_info` (base plugin
metadata plus bridge fields). -/
structure PluginInfo where
  name : String
  version : String
  description : String
  communication_method : String
  mcp_status : MCPStatus
  tool_count : Nat
  is_initialized : Bool

/-- `MCPBridgePlugin.get_info`: a pure read of the adapter state plus
the static base metadata. -/
def getInfo (st : BridgeState) (name version description : String) : PluginInfo where
  name := name
  version := version
  description := description
  communication_method := st.communication_method
  mcp_status := st.mcp_status
  tool_count := st.mcp_tools.length
  is_initialized := st.is_initialized

end MCPBridgePlugin

/-- One entry of `MCPIntegrationManager.mcp_servers`: the persisted
config snapshot (only `server_type` is read by `execute_mcp_tool`) and
the bound plugin, modelled by its `execute` behaviour (which may
raise). -/
structure ServerInfo where
  server_type : String
  pluginExec : String → Params → Except PyError ExecResult

namespace MCPIntegrationManager

/-- `MCPIntegrationManager.execute_mcp_tool`: besides the result dict it
returns the list of `(server, tool)` delegations made to bound plugins,
so that "no plugin was invoked" is an explicit observable.  The function
is total: a raise from the bound plugin is caught by the `except` clause
and converted into a structured failure. -/
def execute_mcp_tool (servers : List (String × ServerInfo))
    (server_name tool_name : String) (parameters : Params) :
    ExecResult × List (String × String) :=
  match servers.lookup server_name with
  | none =>
    ({ success := false
       error := some ("MCP server not found: " ++ server_name)
       available_servers := some (servers.map (fun kv => kv.1)) }, [])
  | some info =>
    match info.pluginExec tool_name parameters with
    | .ok r =>
      let r2 :=
        if r.success then
          { r with mcp_server := some server_name, server_type := some info.server_type }
        else r
      (r2, [(server_name, tool_name)])
    | .error e =>
      ({ success := false
         error := some ("MCP tool execution failed: " ++ e.msg)
         mcp_server := some server_name
         tool := some tool_name }, [(server_name, tool_name)])

end MCPIntegrationManager

/-- A loaded plugin instance; `iname` is `plugin_instance.name`. -/
structure PluginInst where
  iname : String
deriving Repr, DecidableEq

/-- How one plugin behaves during `PluginLoader.load_plugin`:
`importOutcome` is the result of import + class lookup + instantiation
(raising at any of those steps), `configureRaises` is an exception
raised while loading/applying persisted configuration (caught inside
`_load_plugin_config`, which only logs a warning), and
`initializeRaises` is an exception raised by `plugin.initialize()`. -/
structure PluginSpec where
  importOutcome : Except PyError PluginInst
  configureRaises : Option PyError
  initializeRaises : Option PyError

/-- A persisted `plugins`-table record as written by
`_update_plugin_status` (database writes are modelled as succeeding;
the source swallows database errors inside that helper). -/
structure DbRecord where
  status : String
  error_message : Option String
deriving Repr, DecidableEq

/-- The mutable state of a `PluginLoader` (the fields the embedded
claims read; `hasDb` models `self.db_manager` being set). -/
structure LoaderState where
  loaded_plugins : List (String × PluginInst)
  total_loaded : Nat
  total_failed : Nat
  hasDb : Bool
  dbRecords : List (String × DbRecord)

/-- A fresh `PluginLoader(db_manager)`. -/
def LoaderState.mk0 (hasDb : Bool) : LoaderState where
  loaded_plugins := []
  total_loaded := 0
  total_failed := 0
  hasDb := hasDb
  dbRecords := []

namespace PluginLoader

/-- Record a plugin status in the database when a database manager is
bound (`_update_plugin_status`). -/
def updateStatus (st : LoaderState) (name status : String)
    (errorMessage : Option String) : LoaderState :=
  if st.hasDb then
    { st with dbRecords := dictSet st.dbRecords name { status := status, error_message := errorMessage } }
  else st

/-- `PluginLoader.load_plugin`: import the module, locate and
instantiate the plugin class, apply persisted configuration (whose
failures are swallowed by `_load_plugin_config`), run `initialize()`,
register the instance and persist `active` status.  Any exception from
the import/lookup/instantiation or `initialize()` steps is caught,
persisted as `error` with the message, counted in `total_failed`, and
surfaced as `none`. -/
def load_plugin (st : LoaderState) (env : String → PluginSpec)
    (plugin_name : String) : Option PluginInst × LoaderState :=
  let spec := env plugin_name
  let fail := fun (e : PyError) =>
    let errorMsg := "Failed to load plugin " ++ plugin_name ++ ": " ++ e.msg
    let st1 := updateStatus st plugin_name "error" (some errorMsg)
    (none, { st1 with total_failed := st1.total_failed + 1 })
  match spec.importOutcome with
  | .error e => fail e
  | .ok inst =>
    match spec.initializeRaises with
    | some e => fail e
    | none =>
      let st1 := { st with loaded_plugins := dictSet st.loaded_plugins plugin_name inst }
      (some inst, updateStatus st1 plugin_name "active" none)

/-- The result-aggregation loop of `PluginLoader.load_all_plugins`:
`load_plugin` never raises, so each gathered result is either a
`BasePlugin` instance (counted in `total_loaded` and added to the
returned map) or `None` (skipped by both `isinstance` branches). -/
def loadLoop (st : LoaderState) (env : String → PluginSpec) :
    List String → List (String × PluginInst) × LoaderState
  | [] => ([], st)
  | name :: rest =>
    match load_plugin st env name with
    | (some inst, st1) =>
      let st2 := { st1 with total_loaded := st1.total_loaded + 1 }
      let (succ, stFin) := loadLoop st2 env rest
      ((name, inst) :: succ, stFin)
    | (none, st1) =>
      loadLoop st1 env rest

/-- `PluginLoader.load_all_plugins` restricted to the plugin-loading
phase (the trailing `load_mcp_server_plugins` step touches only the
`mcp_servers` map and its counter, none of the state modelled here).
The per-plugin tasks run on the single cooperative event loop; the
sequential fold is an admissible schedule of the gathered tasks. -/
def load_all_plugins (st : LoaderState) (env : String → PluginSpec)
    (discovered : List String) : List (String × PluginInst) × LoaderState :=
  loadLoop st env discovered

end PluginLoader

/-! Derived views of a `PluginSpec`, used to state which load sequences
fail (`load_plugin` returns `None`) on the embedded loader: the
import/lookup/instantiation step or `initialize()` raising fails the
load, while a configuration-step exception is swallowed inside
`_load_plugin_config`. -/

/-- Whether `load_plugin` fails for a plugin with this behaviour. -/
def PluginSpec.fails (spec : PluginSpec) : Bool :=
  match spec.importOutcome with
  | .error _ => true
  | .ok _ => spec.initializeRaises.isSome

/-- The instance `load_plugin` registers and returns, when it succeeds. -/
def PluginSpec.inst (spec : PluginSpec) : Option PluginInst :=
  match spec.importOutcome with
  | .error _ => none
  | .ok i => if spec.initializeRaises.isSome then none else some i

/-- `str(e)` of the exception that fails the load (empty for a
non-failing spec). -/
def PluginSpec.failStr (spec : PluginSpec) : String :=
  match spec.importOutcome with
  | .error e => e.msg
  | .ok _ =>
    match spec.initializeRaises with
    | some e => e.msg
    | none => ""

/-! Concrete fixtures used by witnesses and counterexamples. -/

/-- A Ready stdio adapter whose tool catalog is empty. -/
def stdioReadyState : BridgeState :=
  { BridgeState.mk0 { communication_method := some "stdio" } with
      is_initialized := true
      communication_method := "stdio"
      process := some { exited := false }
      mcp_status :=
        { connected := true, last_sync := some 0, tool_count := 0
          error_count := 0, last_error := none } }

/-- A transport environment whose scripted stdio peer answers
`{"result": 7}`, whose HTTP endpoint returns `1`, and whose one-shot
subprocesses exit cleanly with empty output. -/
def envOkSeven : TransportEnv :=
  { now := 0
    stdioResponse := .ok [("result", .num 7)]
    httpPostResult := .ok (.num 1)
    subprocRun := fun _ => { returncode := 0, stdoutParsed := none, stdoutRaw := "", stderr := "" }
    serverCommand := ["srv"] }

/-- A transport environment whose scripted stdio peer answers with an
`error` member. -/
def envStdioError : TransportEnv :=
  { envOkSeven with stdioResponse := .ok [("error", .str "boom")] }

/-- A stub module with one async function `hello` ignoring its keyword
arguments and returning `42`, and no `get_tools`. -/
def stubModule : PyModule :=
  { funcs := [("hello", { isCoroutine := true, doc := some "say hello", call := fun _ => .ok (.num 42) })]
    getToolsImpl := none }

/-- A Ready python-transport adapter bound to `stubModule`. -/
def pythonReadyState : BridgeState :=
  { BridgeState.mk0 { communication_method := some "python", module_name := some "stub" } with
      is_initialized := true
      communication_method := "python"
      mcp_client := some (.python stubModule)
      mcp_status :=
        { connected := true, last_sync := some 0, tool_count := 0
          error_count := 0, last_error := none } }

/-- A Ready http-transport adapter. -/
def httpReadyState : BridgeState :=
  { BridgeState.mk0 { communication_method := some "http", base_url := some "http://srv" } with
      is_initialized := true
      communication_method := "http"
      mcp_client := some .http
      mcp_status :=
        { connected := true, last_sync := some 0, tool_count := 0
          error_count := 0, last_error := none } }

/-- A Ready subprocess-transport adapter. -/
def subprocReadyState : BridgeState :=
  { BridgeState.mk0 { communication_method := some "subprocess" } with
      is_initialized := true
      communication_method := "subprocess"
      mcp_client := some .subprocessMarker
      mcp_status :=
        { connected := true, last_sync := some 0, tool_count := 0
          error_count := 0, last_error := none } }

/-- A sync environment whose stdio catalog fetch raises while parsing. -/
def syncEnvRaising : SyncEnv :=
  { stdioListResponse := .error (.other "Expecting value: line 1 column 1 (char 0)")
    httpGetToolsResult := .ok (.obj [("tools", .arr [])])
    subprocRun := fun _ => { returncode := 0, stdoutParsed := none, stdoutRaw := "", stderr := "" }
    serverCommand := ["srv"] }

/-- A sync environment whose stdio catalog fetch yields one tool. -/
def syncEnvOneTool : SyncEnv :=
  { syncEnvRaising with
      stdioListResponse :=
        .ok [("result", .obj [("tools", .arr [.obj [("name", .str "t1")]])])] }

/-- An initialization environment that succeeds for every transport and
whose catalog sync yields one tool. -/
def initEnvOk : MCPBridgePlugin.InitEnv :=
  { now := 5
    serverCommand := ["srv"]
    spawnEarlyExit := none
    healthProbe := .ok ()
    importResult := .ok stubModule
    sync := syncEnvOneTool }

/-- The integration manager map of the fixtures: one bound server
`"github-mcp"` of type `"github"` whose plugin echoes a success for tool
`"t"` and raises otherwise. -/
def fixtureServers : List (String × ServerInfo) :=
  [("github-mcp",
    { server_type := "github"
      pluginExec := fun tool _ =>
        if tool = "t" then .ok { success := true, result := some (.num 3), tool := some "t" }
        else .error (.other "RuntimeError: nope") })]

/-- Loader behaviour fixture: plugin `good` loads, `bad` raises in
`initialize()`, `confbad` raises only while applying configuration. -/
def loaderEnvFixture : String → PluginSpec := fun name =>
  if name = "good" then
    { importOutcome := .ok { iname := "GoodPlugin" }
      configureRaises := none
      initializeRaises := none }
  else if name = "bad" then
    { importOutcome := .ok { iname := "BadPlugin" }
      configureRaises := none
      initializeRaises := some (.other "RuntimeError: init exploded") }
  else if name = "confbad" then
    { importOutcome := .ok { iname := "ConfBadPlugin" }
      configureRaises := some (.other "ValueError: bad config")
      initializeRaises := none }
  else
    { importOutcome := .error (.other "ModuleNotFoundError")
      configureRaises := none
      initializeRaises := none }

/-! ## Helper lemmas -/

theorem dictSet_lookup_self {β : Type} (l : List (String × β)) (k : String) (v : β) :
    (dictSet l k v).lookup k = some v := by
  induction l with
  | nil => simp [dictSet]
  | cons p rest ih =>
    obtain ⟨k2, v2⟩ := p
    by_cases h : k2 = k
    · simp [dictSet, h]
    · have hb : (k == k2) = false := beq_eq_false_iff_ne.mpr (Ne.symm h)
      simp [dictSet, h, List.lookup, hb, ih]

theorem dictSet_lookup_ne {β : Type} (l : List (String × β)) (k k2 : String) (v : β)
    (h : k ≠ k2) : (dictSet l k v).lookup k2 = l.lookup k2 := by
  have hb : (k2 == k) = false := beq_eq_false_iff_ne.mpr (Ne.symm h)
  induction l with
  | nil => simp [dictSet, List.lookup, hb]
  | cons p rest ih =>
    obtain ⟨k3, v3⟩ := p
    by_cases h3 : k3 = k
    · subst h3
      simp [dictSet, List.lookup, hb]
    · cases hb2 : (k2 == k3) <;> simp [dictSet, h3, List.lookup, hb2, ih]

open MCPBridgePlugin in
theorem initClient_preserves_status (st : BridgeState) (env : InitEnv) :
    ((initClient st env).1).mcp_status = st.mcp_status := by
  unfold initClient
  dsimp only
  repeat' split
  all_goals rfl

open MCPBridgePlugin in
theorem syncMcpTools_preserves_error_count (st : BridgeState) (env : SyncEnv) :
    ((syncMcpTools st env).1).mcp_status.error_count = st.mcp_status.error_count := by
  unfold syncMcpTools
  split
  all_goals rfl

/-! ## Claims -/

/-- C9: a bridge adapter that is not initialized answers every
`execute(tool_name, parameters)` call with
`{success: false, error: "MCP bridge not initialized"}`: it does not
raise (the embedded `execute` is total), performs no transport event,
and leaves the adapter state (in particular the status counters)
untouched. -/
theorem C9_uninitialized_execute_short_circuits (st : BridgeState)
    (env : TransportEnv) (tool : String) (params : Params)
    (h : st.is_initialized = false) :
    MCPBridgePlugin.execute st env tool params =
      ({ success := false, error := some "MCP bridge not initialized" }, st, []) := by
  simp [MCPBridgePlugin.execute, h]

theorem C9_witness :
    (BridgeState.mk0 {}).is_initialized = false ∧
    MCPBridgePlugin.execute (BridgeState.mk0 {}) envOkSeven "any_tool" [] =
      ({ success := false, error := some "MCP bridge not initialized" },
       BridgeState.mk0 {}, []) :=
  ⟨rfl, C9_uninitialized_execute_short_circuits (BridgeState.mk0 {}) envOkSeven "any_tool" [] rfl⟩

/-- C3: on an initialized adapter, any exception `e` raised by the
transport-specific execution step is caught by `execute`, which returns
`{success: false, error: "MCP tool execution failed: " ++ str(e), ...}`
(never raising), increments `mcp_status.error_count` by exactly one and
sets `mcp_status.last_error` to that same error message. -/
theorem C3_execute_catches_transport_exceptions (st : BridgeState)
    (env : TransportEnv) (tool : String) (params : Params) (e : PyError)
    (evs : List TransportEvent)
    (hinit : st.is_initialized = true)
    (hstep : MCPBridgePlugin.executeStep st env tool params = (.error e, evs)) :
    MCPBridgePlugin.execute st env tool params =
      ({ success := false
         error := some ("MCP tool execution failed: " ++ e.msg)
         tool := some tool
         parameters := some params },
       { st with
           mcp_status :=
             { st.mcp_status with
                 error_count := st.mcp_status.error_count + 1
                 last_error := some ("MCP tool execution failed: " ++ e.msg) } },
       evs) := by
  simp [MCPBridgePlugin.execute, hinit, hstep]

theorem C3_witness :
    stdioReadyState.is_initialized = true ∧
    MCPBridgePlugin.executeStep stdioReadyState envStdioError "t" [] =
      (.error (.mcpComm "MCP server error: boom"),
       [.stdioWrite
          { jsonrpc := "2.0", id := "waygate_0", method := "tools/call"
            params := some (.obj [("name", .str "t"), ("arguments", .obj [])]) },
        .stdioRead]) ∧
    MCPBridgePlugin.execute stdioReadyState envStdioError "t" [] =
      ({ success := false
         error := some ("MCP tool execution failed: " ++ (PyError.mcpComm "MCP server error: boom").msg)
         tool := some "t"
         parameters := some [] },
       { stdioReadyState with
           mcp_status :=
             { stdioReadyState.mcp_status with
                 error_count := stdioReadyState.mcp_status.error_count + 1
                 last_error := some ("MCP tool execution failed: " ++ (PyError.mcpComm "MCP server error: boom").msg) } },
       [.stdioWrite
          { jsonrpc := "2.0", id := "waygate_0", method := "tools/call"
            params := some (.obj [("name", .str "t"), ("arguments", .obj [])]) },
        .stdioRead]) :=
  ⟨rfl, rfl,
   C3_execute_catches_transport_exceptions stdioReadyState envStdioError "t" []
     (.mcpComm "MCP server error: boom") _ rfl rfl⟩

/-- C5: on an initialized stdio adapter with a live subprocess, one tool
execution is exactly one request/response exchange: the transport trace
is one written JSON line `{jsonrpc: "2.0", id, method: "tools/call",
params: {name, arguments}}` followed by one line read.  If the parsed
response object has an `error` member, the step raises
`MCPCommunicationError` (a communication error); otherwise `execute`
returns `{success: true, result: <response result field, defaulting to
{}>, tool: <tool name>}` with the state unchanged. -/
theorem C5_stdio_single_exchange (st : BridgeState) (env : TransportEnv)
    (tool : String) (params : Params) (fields : List (String × JVal))
    (hinit : st.is_initialized = true)
    (hm : st.communication_method = "stdio")
    (hp : st.process = some { exited := false })
    (hr : env.stdioResponse = .ok fields) :
    ((MCPBridgePlugin.execute st env tool params).2.2 =
       [.stdioWrite
          { jsonrpc := "2.0", id := "waygate_" ++ toString env.now, method := "tools/call"
            params := some (.obj [("name", .str tool), ("arguments", .obj params)]) },
        .stdioRead]) ∧
    (∀ ev, fields.lookup "error" = some ev →
       (MCPBridgePlugin.executeStep st env tool params).1 =
         .error (.mcpComm ("MCP server error: " ++ ev.pyToStr))) ∧
    (fields.lookup "error" = none →
       MCPBridgePlugin.execute st env tool params =
         ({ success := true
            result := some ((fields.lookup "result").getD (.obj []))
            tool := some tool },
          st,
          [.stdioWrite
             { jsonrpc := "2.0", id := "waygate_" ++ toString env.now, method := "tools/call"
               params := some (.obj [("name", .str tool), ("arguments", .obj params)]) },
           .stdioRead])) := by
  refine ⟨?_, ?_, ?_⟩
  · simp only [MCPBridgePlugin.execute, MCPBridgePlugin.executeStep,
      MCPBridgePlugin.execStdioTool, hinit, hm, hp, hr]
    cases h : fields.lookup "error" <;> simp
  · intro ev hev
    simp [MCPBridgePlugin.executeStep, MCPBridgePlugin.execStdioTool, hm, hp, hr, hev]
  · intro hnone
    simp [MCPBridgePlugin.execute, MCPBridgePlugin.executeStep,
      MCPBridgePlugin.execStdioTool, hinit, hm, hp, hr, hnone]

theorem C5_witness :
    stdioReadyState.is_initialized = true ∧
    stdioReadyState.communication_method = "stdio" ∧
    stdioReadyState.process = some { exited := false } ∧
    envOkSeven.stdioResponse = .ok [("result", JVal.num 7)] ∧
    ([("result", JVal.num 7)].lookup "error" = none →
       MCPBridgePlugin.execute stdioReadyState envOkSeven "echo" [] =
         ({ success := true
            result := some (([("result", JVal.num 7)].lookup "result").getD (.obj []))
            tool := some "echo" },
          stdioReadyState,
          [.stdioWrite
             { jsonrpc := "2.0", id := "waygate_" ++ toString envOkSeven.now, method := "tools/call"
               params := some (.obj [("name", .str "echo"), ("arguments", .obj [])]) },
           .stdioRead])) :=
  ⟨rfl, rfl, rfl, rfl,
   (C5_stdio_single_exchange stdioReadyState envOkSeven "echo" []
      [("result", JVal.num 7)] rfl rfl rfl rfl).2.2⟩

/-- C8: on a Ready (initialized) adapter, `get_tools()` returns the
in-memory catalog and leaves the state unchanged, so a second call —
even against a different external environment — returns the identical
catalog (same names, same count): it is idempotent and side-effect-free
from the caller's perspective. -/
theorem C8_getTools_idempotent (st : BridgeState)
    (env env2 : MCPBridgePlugin.InitEnv) (h : st.is_initialized = true) :
    MCPBridgePlugin.getTools st env = (st, .ok st.mcp_tools) ∧
    MCPBridgePlugin.getTools (MCPBridgePlugin.getTools st env).1 env2 =
      ((MCPBridgePlugin.getTools st env).1, .ok st.mcp_tools) := by
  constructor <;> simp [MCPBridgePlugin.getTools, h]

theorem C8_witness :
    stdioReadyState.is_initialized = true ∧
    MCPBridgePlugin.getTools stdioReadyState initEnvOk =
      (stdioReadyState, .ok stdioReadyState.mcp_tools) ∧
    MCPBridgePlugin.getTools (MCPBridgePlugin.getTools stdioReadyState initEnvOk).1 initEnvOk =
      ((MCPBridgePlugin.getTools stdioReadyState initEnvOk).1, .ok stdioReadyState.mcp_tools) :=
  ⟨rfl,
   (C8_getTools_idempotent stdioReadyState initEnvOk initEnvOk rfl).1,
   (C8_getTools_idempotent stdioReadyState initEnvOk initEnvOk rfl).2⟩

/-- C2: `MCPIntegrationManager.execute_mcp_tool` (i) rejects an unknown
server name with `{success: false, error, available_servers: <bound
server names>}` and delegates to no plugin (empty delegation trace);
(ii) when the bound plugin's `execute` returns a success result, the
returned dict additionally carries the server name (`mcp_server`) and
its `server_type`; (iii) when the bound plugin raises, the call returns
a structured `{success: false, error, ...}` dict — the embedded function
is total, so nothing propagates past this boundary. -/
theorem C2_execute_mcp_tool_boundary (servers : List (String × ServerInfo))
    (server tool : String) (params : Params) :
    (servers.lookup server = none →
       MCPIntegrationManager.execute_mcp_tool servers server tool params =
         ({ success := false
            error := some ("MCP server not found: " ++ server)
            available_servers := some (servers.map fun kv => kv.1) }, [])) ∧
    (∀ info r, servers.lookup server = some info →
       info.pluginExec tool params = .ok r → r.success = true →
       MCPIntegrationManager.execute_mcp_tool servers server tool params =
         ({ r with mcp_server := some server, server_type := some info.server_type },
          [(server, tool)])) ∧
    (∀ info e, servers.lookup server = some info →
       info.pluginExec tool params = .error e →
       MCPIntegrationManager.execute_mcp_tool servers server tool params =
         ({ success := false
            error := some ("MCP tool execution failed: " ++ e.msg)
            mcp_server := some server
            tool := some tool }, [(server, tool)])) := by
  refine ⟨fun h => ?_, fun info r hl hx hs => ?_, fun info e hl hx => ?_⟩
  · simp [MCPIntegrationManager.execute_mcp_tool, h]
  · simp [MCPIntegrationManager.execute_mcp_tool, hl, hx, hs]
  · simp [MCPIntegrationManager.execute_mcp_tool, hl, hx]

theorem C2_witness :
    fixtureServers.lookup "nope" = none ∧
    MCPIntegrationManager.execute_mcp_tool fixtureServers "nope" "x" [] =
      ({ success := false
         error := some ("MCP server not found: " ++ "nope")
         available_servers := some (fixtureServers.map fun kv => kv.1) }, []) :=
  ⟨rfl, (C2_execute_mcp_tool_boundary fixtureServers "nope" "x" []).1 rfl⟩

/-- C6: `_sync_mcp_tools` replaces the adapter's tool list wholesale:
the resulting list never depends on the previous one (no merging); a
successful fetch installs exactly the fetched list, a raising fetch
degrades to the empty list (the embedded sync is total, so the
exception does not propagate); and an enclosing `initialize()` whose
client setup succeeded completes without raising whatever the catalog
fetch did. -/
theorem C6_sync_wholesale_replacement (st : BridgeState) (env : SyncEnv) :
    (∀ old : List JVal,
       ((MCPBridgePlugin.syncMcpTools { st with mcp_tools := old } env).1).mcp_tools =
         ((MCPBridgePlugin.syncMcpTools st env).1).mcp_tools) ∧
    (∀ ts evs, MCPBridgePlugin.syncFetch st env = (.ok ts, evs) →
       ((MCPBridgePlugin.syncMcpTools st env).1).mcp_tools = ts) ∧
    (∀ e evs, MCPBridgePlugin.syncFetch st env = (.error e, evs) →
       ((MCPBridgePlugin.syncMcpTools st env).1).mcp_tools = []) ∧
    (∀ (envI : MCPBridgePlugin.InitEnv) (stc : BridgeState)
       (evs : List TransportEvent),
       MCPBridgePlugin.initClient
           { st with credentials := st.mcp_config.credentials.getD [] } envI =
         (stc, none, evs) →
       (MCPBridgePlugin.initBridge st envI).2.1 = none) := by
  obtain ⟨cfg, cl, cr, tools, cm, pr, ini, stat⟩ := st
  refine ⟨fun old => ?_, fun ts evs h => ?_, fun e evs h => ?_,
          fun envI stc evs h => ?_⟩
  · unfold MCPBridgePlugin.syncMcpTools
    have hf : MCPBridgePlugin.syncFetch
        { mcp_config := cfg, mcp_client := cl, credentials := cr, mcp_tools := old
          communication_method := cm, process := pr, is_initialized := ini
          mcp_status := stat } env =
        MCPBridgePlugin.syncFetch
        { mcp_config := cfg, mcp_client := cl, credentials := cr, mcp_tools := tools
          communication_method := cm, process := pr, is_initialized := ini
          mcp_status := stat } env := rfl
    rw [hf]
  · unfold MCPBridgePlugin.syncMcpTools
    rw [h]
  · unfold MCPBridgePlugin.syncMcpTools
    rw [h]
  · unfold MCPBridgePlugin.initBridge
    dsimp only
    rw [h]

theorem C6_witness :
    MCPBridgePlugin.syncFetch stdioReadyState syncEnvRaising =
      (.error (.other "Expecting value: line 1 column 1 (char 0)"),
       [.stdioWrite
          { jsonrpc := "2.0", id := "waygate_tools_list", method := "tools/list"
            params := none },
        .stdioRead]) ∧
    ((MCPBridgePlugin.syncMcpTools stdioReadyState syncEnvRaising).1).mcp_tools = [] :=
  ⟨rfl,
   (C6_sync_wholesale_replacement stdioReadyState syncEnvRaising).2.2.1
     (.other "Expecting value: line 1 column 1 (char 0)")
     [.stdioWrite
        { jsonrpc := "2.0", id := "waygate_tools_list", method := "tools/list"
          params := none },
      .stdioRead] rfl⟩

open MCPBridgePlugin in
theorem initBridge_error_count (st : BridgeState) (env : InitEnv) :
    ((initBridge st env).1).mcp_status.error_count =
      st.mcp_status.error_count +
        (match (initBridge st env).2.1 with | none => 0 | some _ => 1) := by
  rcases hC : initClient { st with credentials := st.mcp_config.credentials.getD [] } env
    with ⟨stc, oe, evs⟩
  have hstat : stc.mcp_status = st.mcp_status := by
    have h2 := initClient_preserves_status
      { st with credentials := st.mcp_config.credentials.getD [] } env
    rw [hC] at h2
    exact h2
  unfold initBridge
  dsimp only
  rw [hC]
  cases oe with
  | some e => simp [hstat]
  | none =>
    rcases hS : syncMcpTools stc env.sync with ⟨st3, evs2⟩
    have h3 := syncMcpTools_preserves_error_count stc env.sync
    rw [hS] at h3
    dsimp only
    rw [hS]
    dsimp only
    rw [h3, hstat]
    omega

open MCPBridgePlugin in
theorem cleanup_error_count (st : BridgeState) (b : Bool) :
    (cleanup st b).mcp_status.error_count = st.mcp_status.error_count := by
  unfold cleanup
  split
  all_goals rfl

/-- C10: `mcp_status.error_count` is monotonically non-decreasing
across every bridge operation, and it moves only on failures:
`execute` leaves the state untouched when uninitialized or when the
dispatched step succeeds, and adds exactly one when the step raises;
`initialize` adds exactly one exactly when it raises; the catalog sync,
`cleanup` and `get_info` never change it; `get_tools` and
`configure_mcp_server` never decrease it (they can move it only through
the `initialize` they embed). -/
theorem C10_error_count_monotone :
    (∀ (st : BridgeState) (env : TransportEnv) (tool : String) (params : Params),
       st.is_initialized = false →
       (MCPBridgePlugin.execute st env tool params).2.1 = st) ∧
    (∀ (st : BridgeState) (env : TransportEnv) (tool : String) (params : Params)
       (r : ExecResult) (evs : List TransportEvent),
       st.is_initialized = true →
       MCPBridgePlugin.executeStep st env tool params = (.ok r, evs) →
       (MCPBridgePlugin.execute st env tool params).2.1 = st) ∧
    (∀ (st : BridgeState) (env : TransportEnv) (tool : String) (params : Params)
       (e : PyError) (evs : List TransportEvent),
       st.is_initialized = true →
       MCPBridgePlugin.executeStep st env tool params = (.error e, evs) →
       ((MCPBridgePlugin.execute st env tool params).2.1).mcp_status.error_count =
         st.mcp_status.error_count + 1) ∧
    (∀ (st : BridgeState) (env : MCPBridgePlugin.InitEnv),
       (MCPBridgePlugin.initBridge st env).2.1 = none →
       ((MCPBridgePlugin.initBridge st env).1).mcp_status.error_count =
         st.mcp_status.error_count) ∧
    (∀ (st : BridgeState) (env : MCPBridgePlugin.InitEnv) (e : PyError),
       (MCPBridgePlugin.initBridge st env).2.1 = some e →
       ((MCPBridgePlugin.initBridge st env).1).mcp_status.error_count =
         st.mcp_status.error_count + 1) ∧
    (∀ (st : BridgeState) (env : SyncEnv),
       ((MCPBridgePlugin.syncMcpTools st env).1).mcp_status.error_count =
         st.mcp_status.error_count) ∧
    (∀ (st : BridgeState) (b : Bool),
       (MCPBridgePlugin.cleanup st b).mcp_status.error_count =
         st.mcp_status.error_count) ∧
    (∀ (st : BridgeState) (n v d : String),
       (MCPBridgePlugin.getInfo st n v d).mcp_status.error_count =
         st.mcp_status.error_count) ∧
    (∀ (st : BridgeState) (env : MCPBridgePlugin.InitEnv),
       st.mcp_status.error_count ≤
         ((MCPBridgePlugin.getTools st env).1).mcp_status.error_count) ∧
    (∀ (st : BridgeState) (patch : MCPConfig) (b : Bool)
       (env : MCPBridgePlugin.InitEnv),
       st.mcp_status.error_count ≤
         ((MCPBridgePlugin.configureMcpServer st patch b env).1).mcp_status.error_count) ∧
    (∀ (st : BridgeState) (env : TransportEnv) (tool : String) (params : Params),
       st.mcp_status.error_count ≤
         ((MCPBridgePlugin.execute st env tool params).2.1).mcp_status.error_count) := by
  have hexecF : ∀ (st : BridgeState) (env : TransportEnv) (tool : String)
      (params : Params) (e : PyError) (evs : List TransportEvent),
      st.is_initialized = true →
      MCPBridgePlugin.executeStep st env tool params = (.error e, evs) →
      ((MCPBridgePlugin.execute st env tool params).2.1).mcp_status.error_count =
        st.mcp_status.error_count + 1 := by
    intro st env tool params e evs h hstep
    simp [MCPBridgePlugin.execute, h, hstep]
  have hinitOk : ∀ (st : BridgeState) (env : MCPBridgePlugin.InitEnv),
      (MCPBridgePlugin.initBridge st env).2.1 = none →
      ((MCPBridgePlugin.initBridge st env).1).mcp_status.error_count =
        st.mcp_status.error_count := by
    intro st env h
    have := initBridge_error_count st env
    rw [h] at this
    simpa using this
  have hinitF : ∀ (st : BridgeState) (env : MCPBridgePlugin.InitEnv) (e : PyError),
      (MCPBridgePlugin.initBridge st env).2.1 = some e →
      ((MCPBridgePlugin.initBridge st env).1).mcp_status.error_count =
        st.mcp_status.error_count + 1 := by
    intro st env e h
    have := initBridge_error_count st env
    rw [h] at this
    simpa using this
  have hinitLe : ∀ (st : BridgeState) (env : MCPBridgePlugin.InitEnv),
      st.mcp_status.error_count ≤
        ((MCPBridgePlugin.initBridge st env).1).mcp_status.error_count := by
    intro st env
    cases h : (MCPBridgePlugin.initBridge st env).2.1 with
    | none => exact le_of_eq (hinitOk st env h).symm
    | some e => rw [hinitF st env e h]; omega
  refine ⟨fun st env tool params h => ?_,
          fun st env tool params r evs h hstep => ?_,
          hexecF, hinitOk, hinitF,
          fun st env => syncMcpTools_preserves_error_count st env,
          cleanup_error_count,
          fun st n v d => rfl,
          fun st env => ?_,
          fun st patch b env => ?_,
          fun st env tool params => ?_⟩
  · simp [MCPBridgePlugin.execute, h]
  · simp [MCPBridgePlugin.execute, h, hstep]
  · unfold MCPBridgePlugin.getTools
    by_cases h : st.is_initialized
    · simp [h]
    · rcases hI : MCPBridgePlugin.initBridge st env with ⟨st2, oe, evs⟩
      have := hinitLe st env
      rw [hI] at this
      cases oe <;> simp [h, hI] <;> exact this
  · unfold MCPBridgePlugin.configureMcpServer
    dsimp only
    split
    · calc st.mcp_status.error_count
          = (MCPBridgePlugin.cleanup
              { st with mcp_config := MCPBridgePlugin.configUpdate st.mcp_config patch }
              b).mcp_status.error_count :=
            (cleanup_error_count
              { st with mcp_config := MCPBridgePlugin.configUpdate st.mcp_config patch }
              b).symm
        _ ≤ _ := hinitLe _ env
    · exact le_refl _
  · by_cases h : st.is_initialized
    · cases hstep : MCPBridgePlugin.executeStep st env tool params with
      | mk res evs =>
        cases res with
        | ok r =>
          have : (MCPBridgePlugin.execute st env tool params).2.1 = st := by
            simp [MCPBridgePlugin.execute, h, hstep]
          rw [this]
        | error e =>
          rw [hexecF st env tool params e evs h hstep]
          omega
    · have hf : st.is_initialized = false := by
        cases hv : st.is_initialized
        · rfl
        · exact absurd hv h
      simp [MCPBridgePlugin.execute, hf]

theorem C10_witness :
    stdioReadyState.is_initialized = true ∧
    MCPBridgePlugin.executeStep stdioReadyState envStdioError "t" [] =
      (.error (.mcpComm "MCP server error: boom"),
       [.stdioWrite
          { jsonrpc := "2.0", id := "waygate_0", method := "tools/call"
            params := some (.obj [("name", .str "t"), ("arguments", .obj [])]) },
        .stdioRead]) ∧
    ((MCPBridgePlugin.execute stdioReadyState envStdioError "t" []).2.1).mcp_status.error_count =
      stdioReadyState.mcp_status.error_count + 1 :=
  ⟨rfl, rfl,
   C10_error_count_monotone.2.2.1 stdioReadyState envStdioError "t" []
     (.mcpComm "MCP server error: boom") _ rfl rfl⟩

/-- C1 counterexample: a Ready stdio adapter with an *empty* tool
catalog (so `"ghost_tool"` is certainly not in it), whose scripted peer
answers `{"result": 7}`.  Contrary to the claim, `execute("ghost_tool",
{})` performs the stdio transport exchange (two transport events: one
line written, one line read) and returns the peer's success result —
not `{success: false, error: "Unknown tool: ghost_tool"}` and not
transport-free. -/
theorem C1_counterexample :
    stdioReadyState.is_initialized = true ∧
    stdioReadyState.mcp_tools = [] ∧
    ((MCPBridgePlugin.execute stdioReadyState envOkSeven "ghost_tool" []).1).success = true ∧
    ((MCPBridgePlugin.execute stdioReadyState envOkSeven "ghost_tool" []).1).error = none ∧
    (MCPBridgePlugin.execute stdioReadyState envOkSeven "ghost_tool" []).2.2 =
      [.stdioWrite
         { jsonrpc := "2.0", id := "waygate_0", method := "tools/call"
           params := some (.obj [("name", .str "ghost_tool"), ("arguments", .obj [])]) },
       .stdioRead] :=
  ⟨rfl, rfl, rfl, rfl, rfl⟩

/-- C1 (amended): the bridge adapter's `execute` never consults its tool
catalog — its result and its transport trace are independent of
`mcp_tools`, so a tool name absent from the catalog is treated exactly
like any other.  On a Ready adapter the transport call is still
attempted: the stdio transport (live process) writes one request line
and reads one response line, the http transport posts to
`/tools/execute`, and the subprocess transport spawns the one-shot
command.  Only the python transport rejects a name with no matching
module attribute, and it does so with
`{success: false, error: "MCP tool execution failed: Tool not found in
Python module: <name>"}` — the string `"Unknown tool: <name>"` appears
only in direct plugins such as `GitHubPlugin`, not in the bridge. -/
theorem C1_amended_no_catalog_check (st : BridgeState) (env : TransportEnv)
    (tool : String) (params : Params) :
    (∀ l : List JVal,
       (MCPBridgePlugin.execute { st with mcp_tools := l } env tool params).1 =
         (MCPBridgePlugin.execute st env tool params).1 ∧
       (MCPBridgePlugin.execute { st with mcp_tools := l } env tool params).2.2 =
         (MCPBridgePlugin.execute st env tool params).2.2) ∧
    (st.is_initialized = true → st.communication_method = "stdio" →
       st.process = some { exited := false } →
       (MCPBridgePlugin.execute st env tool params).2.2 =
         [.stdioWrite
            { jsonrpc := "2.0", id := "waygate_" ++ toString env.now, method := "tools/call"
              params := some (.obj [("name", .str tool), ("arguments", .obj params)]) },
          .stdioRead]) ∧
    (st.is_initialized = true → st.communication_method = "http" →
       st.mcp_client = some .http →
       (MCPBridgePlugin.execute st env tool params).2.2 =
         [.httpPost "/tools/execute"
            (.obj [("tool", .str tool), ("parameters", .obj params)])]) ∧
    (st.is_initialized = true → st.communication_method = "subprocess" →
       (MCPBridgePlugin.execute st env tool params).2.2 =
         [.subprocSpawn
            (env.serverCommand ++ ["--tool", tool] ++
              (params.map (fun kv => ["--" ++ kv.1, kv.2.pyToStr])).flatten)]) ∧
    (∀ m : PyModule, st.is_initialized = true →
       st.communication_method = "python" →
       st.mcp_client = some (.python m) → m.funcs.lookup tool = none →
       ((MCPBridgePlugin.execute st env tool params).1).error =
         some ("MCP tool execution failed: " ++
           ("Tool not found in Python module: " ++ tool))) := by
  obtain ⟨cfg, cl, cr, tools, cm, pr, ini, stat⟩ := st
  refine ⟨fun l => ?_, fun h1 h2 h3 => ?_, fun h1 h2 h3 => ?_,
          fun h1 h2 => ?_, fun m h1 h2 h3 h4 => ?_⟩
  · cases ini with
    | false => exact ⟨rfl, rfl⟩
    | true =>
      rcases hstep : MCPBridgePlugin.executeStep
          { mcp_config := cfg, mcp_client := cl, credentials := cr, mcp_tools := tools
            communication_method := cm, process := pr, is_initialized := true
            mcp_status := stat } env tool params with ⟨res, evs⟩
      have hstep2 : MCPBridgePlugin.executeStep
          { mcp_config := cfg, mcp_client := cl, credentials := cr, mcp_tools := l
            communication_method := cm, process := pr, is_initialized := true
            mcp_status := stat } env tool params = (res, evs) := hstep
      cases res <;> simp [MCPBridgePlugin.execute, hstep, hstep2]
  · dsimp only at h1 h2 h3 ⊢
    subst h1
    subst h2
    subst h3
    rcases hr : env.stdioResponse with e | fields
    · simp [MCPBridgePlugin.execute, MCPBridgePlugin.executeStep,
        MCPBridgePlugin.execStdioTool, hr]
    · cases hlk : fields.lookup "error" <;>
        simp [MCPBridgePlugin.execute, MCPBridgePlugin.executeStep,
          MCPBridgePlugin.execStdioTool, hr, hlk]
  · dsimp only at h1 h2 h3 ⊢
    subst h1
    subst h2
    subst h3
    rcases hr : env.httpPostResult with e | body <;>
      simp [MCPBridgePlugin.execute, MCPBridgePlugin.executeStep,
        MCPBridgePlugin.execHttpTool, hr]
  · dsimp only at h1 h2 ⊢
    subst h1
    subst h2
    by_cases hrc : (env.subprocRun (env.serverCommand ++ "--tool" :: tool ::
        (List.map (fun kv => ["--" ++ kv.1, kv.2.pyToStr]) params).flatten)).returncode = 0 <;>
      simp [MCPBridgePlugin.execute, MCPBridgePlugin.executeStep,
        MCPBridgePlugin.execSubprocessTool, hrc]
  · dsimp only at h1 h2 h3 ⊢
    subst h1
    subst h2
    subst h3
    simp [MCPBridgePlugin.execute, MCPBridgePlugin.executeStep,
      MCPBridgePlugin.execPythonTool, MCPBridgePlugin.clientFuncs, h4,
      PyError.msg]

theorem C1_amended_witness :
    stdioReadyState.is_initialized = true ∧
    stdioReadyState.communication_method = "stdio" ∧
    stdioReadyState.process = some { exited := false } ∧
    (MCPBridgePlugin.execute stdioReadyState envOkSeven "ghost2" []).2.2 =
      [.stdioWrite
         { jsonrpc := "2.0", id := "waygate_" ++ toString envOkSeven.now, method := "tools/call"
           params := some (.obj [("name", .str "ghost2"), ("arguments", .obj [])]) },
       .stdioRead] :=
  ⟨rfl, rfl, rfl,
   (C1_amended_no_catalog_check stdioReadyState envOkSeven "ghost2" []).2.1 rfl rfl rfl⟩

/-- C7 counterexample: a Ready python adapter bound to a stub module
without attribute `"nonexistent_fn"`.  Contrary to the claim that a
missing attribute "is an unknown-tool error, not a transport
(communication) error", the missing attribute is raised as
`MCPCommunicationError` — the code's single communication-error type —
and `execute` books it exactly like a transport failure: the status
counter `error_count` is incremented and `last_error` recorded, with
the unknown tool identifiable only through the message text. -/
theorem C7_counterexample :
    pythonReadyState.is_initialized = true ∧
    stubModule.funcs.lookup "nonexistent_fn" = none ∧
    MCPBridgePlugin.execPythonTool pythonReadyState "nonexistent_fn" [] =
      (.error (.mcpComm "Tool not found in Python module: nonexistent_fn"), []) ∧
    ((MCPBridgePlugin.execute pythonReadyState envOkSeven "nonexistent_fn" []).2.1).mcp_status.error_count =
      pythonReadyState.mcp_status.error_count + 1 ∧
    ((MCPBridgePlugin.execute pythonReadyState envOkSeven "nonexistent_fn" []).1).error =
      some "MCP tool execution failed: Tool not found in Python module: nonexistent_fn" :=
  ⟨rfl, rfl, rfl, rfl, rfl⟩

/-- C7 (amended): on a Ready python-transport adapter bound to a module:
a tool name that is not a module attribute raises
`MCPCommunicationError("Tool not found in Python module: <name>")` — the
same communication-error type as transport failures — which `execute`
converts into `{success: false, error: "MCP tool execution failed: Tool
not found in Python module: <name>"}` with `error_count` incremented, so
the unknown tool is distinguished from a transport failure only by the
message text.  A tool name bound to an existing module function is
called with the parameters unpacked as keyword arguments — awaited
transparently when it is a coroutine function — and its (awaited) return
value `v` yields `{success: true, result: v, tool: <name>}` with no
state change. -/
theorem C7_amended_python_adapter (st : BridgeState) (env : TransportEnv)
    (tool : String) (params : Params) (m : PyModule)
    (hinit : st.is_initialized = true)
    (hm : st.communication_method = "python")
    (hc : st.mcp_client = some (.python m)) :
    (m.funcs.lookup tool = none →
       MCPBridgePlugin.execPythonTool st tool params =
         (.error (.mcpComm ("Tool not found in Python module: " ++ tool)), []) ∧
       MCPBridgePlugin.execute st env tool params =
         ({ success := false
            error := some ("MCP tool execution failed: " ++
              ("Tool not found in Python module: " ++ tool))
            tool := some tool
            parameters := some params },
          { st with
              mcp_status :=
                { st.mcp_status with
                    error_count := st.mcp_status.error_count + 1
                    last_error := some ("MCP tool execution failed: " ++
                      ("Tool not found in Python module: " ++ tool)) } },
          [])) ∧
    (∀ (f : PyFunc) (v : JVal), m.funcs.lookup tool = some f →
       f.call params = .ok v →
       MCPBridgePlugin.execute st env tool params =
         ({ success := true, result := some v, tool := some tool }, st,
          [.pyCall tool params])) := by
  constructor
  · intro hmiss
    constructor
    · simp [MCPBridgePlugin.execPythonTool, MCPBridgePlugin.clientFuncs, hc, hmiss]
    · simp [MCPBridgePlugin.execute, MCPBridgePlugin.executeStep,
        MCPBridgePlugin.execPythonTool, MCPBridgePlugin.clientFuncs,
        hinit, hm, hc, hmiss, PyError.msg]
  · intro f v hf hv
    simp [MCPBridgePlugin.execute, MCPBridgePlugin.executeStep,
      MCPBridgePlugin.execPythonTool, MCPBridgePlugin.clientFuncs,
      hinit, hm, hc, hf, hv]

theorem C7_amended_witness :
    pythonReadyState.is_initialized = true ∧
    pythonReadyState.communication_method = "python" ∧
    pythonReadyState.mcp_client = some (.python stubModule) ∧
    stubModule.funcs.lookup "hello" =
      some { isCoroutine := true, doc := some "say hello", call := fun _ => .ok (.num 42) } ∧
    MCPBridgePlugin.execute pythonReadyState envOkSeven "hello" [("who", .str "world")] =
      ({ success := true, result := some (.num 42), tool := some "hello" },
       pythonReadyState,
       [.pyCall "hello" [("who", .str "world")]]) :=
  ⟨rfl, rfl, rfl, rfl,
   (C7_amended_python_adapter pythonReadyState envOkSeven "hello"
      [("who", .str "world")] stubModule rfl rfl rfl).2
     { isCoroutine := true, doc := some "say hello", call := fun _ => .ok (.num 42) }
     (.num 42) rfl rfl⟩

theorem updateStatus_fields (st : LoaderState) (name status : String)
    (em : Option String) :
    (PluginLoader.updateStatus st name status em).loaded_plugins = st.loaded_plugins ∧
    (PluginLoader.updateStatus st name status em).total_failed = st.total_failed ∧
    (PluginLoader.updateStatus st name status em).total_loaded = st.total_loaded ∧
    (PluginLoader.updateStatus st name status em).hasDb = st.hasDb := by
  unfold PluginLoader.updateStatus
  split
  · exact ⟨rfl, rfl, rfl, rfl⟩
  · exact ⟨rfl, rfl, rfl, rfl⟩

theorem spec_fails_inst_none (spec : PluginSpec) (h : spec.fails = true) :
    spec.inst = none := by
  unfold PluginSpec.fails at h
  unfold PluginSpec.inst
  cases hio : spec.importOutcome with
  | error e => rfl
  | ok i =>
    rw [hio] at h
    dsimp only at h
    cases hir : spec.initializeRaises with
    | none => rw [hir] at h; simp at h
    | some e => simp [hir]

theorem load_plugin_fail (st : LoaderState) (env : String → PluginSpec)
    (name : String) (h : (env name).fails = true) :
    (PluginLoader.load_plugin st env name).1 = none ∧
    ((PluginLoader.load_plugin st env name).2).loaded_plugins = st.loaded_plugins ∧
    ((PluginLoader.load_plugin st env name).2).total_failed = st.total_failed + 1 ∧
    ((PluginLoader.load_plugin st env name).2).total_loaded = st.total_loaded ∧
    ((PluginLoader.load_plugin st env name).2).hasDb = st.hasDb ∧
    (st.hasDb = true →
       ((PluginLoader.load_plugin st env name).2).dbRecords.lookup name =
         some { status := "error"
                error_message :=
                  some ("Failed to load plugin " ++ name ++ ": " ++ (env name).failStr) }) := by
  unfold PluginLoader.load_plugin
  dsimp only
  unfold PluginSpec.fails at h
  cases hio : (env name).importOutcome with
  | error e =>
    have hfs : (env name).failStr = e.msg := by
      unfold PluginSpec.failStr
      rw [hio]
    rw [hfs]
    refine ⟨rfl, (updateStatus_fields st name "error" _).1, ?_, ?_, ?_, fun hdb => ?_⟩
    · dsimp only
      rw [(updateStatus_fields st name "error" _).2.1]
    · exact (updateStatus_fields st name "error" _).2.2.1
    · exact (updateStatus_fields st name "error" _).2.2.2
    · unfold PluginLoader.updateStatus
      rw [hdb]
      dsimp only
      exact dictSet_lookup_self st.dbRecords name _
  | ok i =>
    rw [hio] at h
    cases hir : (env name).initializeRaises with
    | none => rw [hir] at h; simp at h
    | some e =>
      have hfs : (env name).failStr = e.msg := by
        unfold PluginSpec.failStr
        rw [hio, hir]
      rw [hfs]
      refine ⟨rfl, (updateStatus_fields st name "error" _).1, ?_, ?_, ?_, fun hdb => ?_⟩
      · dsimp only
        rw [(updateStatus_fields st name "error" _).2.1]
      · exact (updateStatus_fields st name "error" _).2.2.1
      · exact (updateStatus_fields st name "error" _).2.2.2
      · unfold PluginLoader.updateStatus
        rw [hdb]
        dsimp only
        exact dictSet_lookup_self st.dbRecords name _

theorem load_plugin_ok (st : LoaderState) (env : String → PluginSpec)
    (name : String) (inst : PluginInst)
    (hio : (env name).importOutcome = .ok inst)
    (hir : (env name).initializeRaises = none) :
    (PluginLoader.load_plugin st env name).1 = some inst ∧
    ((PluginLoader.load_plugin st env name).2).loaded_plugins =
      dictSet st.loaded_plugins name inst ∧
    ((PluginLoader.load_plugin st env name).2).total_failed = st.total_failed ∧
    ((PluginLoader.load_plugin st env name).2).total_loaded = st.total_loaded ∧
    ((PluginLoader.load_plugin st env name).2).hasDb = st.hasDb := by
  unfold PluginLoader.load_plugin
  dsimp only
  rw [hio, hir]
  dsimp only
  exact ⟨rfl,
    (updateStatus_fields _ name "active" none).1,
    (updateStatus_fields _ name "active" none).2.1,
    (updateStatus_fields _ name "active" none).2.2.1,
    (updateStatus_fields _ name "active" none).2.2.2⟩

theorem spec_ok_inst (spec : PluginSpec) (inst : PluginInst)
    (hio : spec.importOutcome = .ok inst) (hir : spec.initializeRaises = none) :
    spec.fails = false ∧ spec.inst = some inst := by
  unfold PluginSpec.fails PluginSpec.inst
  rw [hio, hir]
  exact ⟨rfl, rfl⟩

theorem loadLoop_spec (env : String → PluginSpec) :
    ∀ (names : List String) (st : LoaderState), names.Nodup →
      ((PluginLoader.loadLoop st env names).2).total_failed =
        st.total_failed + (names.filter (fun n => (env n).fails)).length ∧
      ((PluginLoader.loadLoop st env names).2).total_loaded =
        st.total_loaded + (names.filter (fun n => !(env n).fails)).length ∧
      (∀ k, k ∉ names →
        ((PluginLoader.loadLoop st env names).2).loaded_plugins.lookup k =
          st.loaded_plugins.lookup k) ∧
      (∀ n ∈ names, st.loaded_plugins.lookup n = none →
        ((PluginLoader.loadLoop st env names).2).loaded_plugins.lookup n =
          (env n).inst) := by
  intro names
  induction names with
  | nil =>
    intro st _
    exact ⟨by simp [PluginLoader.loadLoop], by simp [PluginLoader.loadLoop],
           fun k _ => rfl, fun n hn => absurd hn (List.not_mem_nil n)⟩
  | cons name rest ih =>
    intro st hnd
    have hni : name ∉ rest := (List.nodup_cons.mp hnd).1
    have hrest : rest.Nodup := (List.nodup_cons.mp hnd).2
    rcases hL : PluginLoader.load_plugin st env name with ⟨res, st1⟩
    cases hfail : (env name).fails with
    | true =>
      obtain ⟨hres, hlp, hfailed, hloaded, hdb, _⟩ := load_plugin_fail st env name hfail
      rw [hL] at hres hlp hfailed hloaded hdb
      dsimp only at hres hlp hfailed hloaded hdb
      subst hres
      have hred : PluginLoader.loadLoop st env (name :: rest) =
          PluginLoader.loadLoop st1 env rest := by
        rw [PluginLoader.loadLoop, hL]
      obtain ⟨ihf, ihl, ihframe, ihmem⟩ := ih st1 hrest
      rw [hred]
      refine ⟨?_, ?_, fun k hk => ?_, fun n hn hnone => ?_⟩
      · rw [ihf, hfailed]
        simp [hfail]
        omega
      · rw [ihl, hloaded]
        simp [hfail]
      · have hk1 : k ∉ rest := fun hmem => hk (List.mem_cons_of_mem name hmem)
        rw [ihframe k hk1, hlp]
      · rcases List.mem_cons.mp hn with hEq | hmem
        · subst hEq
          rw [ihframe n hni, hlp, hnone, spec_fails_inst_none (env n) hfail]
        · exact ihmem n hmem (by rw [hlp]; exact hnone)
    | false =>
      have hinst : ∃ i, (env name).importOutcome = .ok i ∧
          (env name).initializeRaises = none := by
        unfold PluginSpec.fails at hfail
        cases hio : (env name).importOutcome with
        | error e => rw [hio] at hfail; simp at hfail
        | ok i =>
          rw [hio] at hfail
          dsimp only at hfail
          cases h2 : (env name).initializeRaises with
          | none => exact ⟨i, rfl, rfl⟩
          | some e => rw [h2] at hfail; simp at hfail
      obtain ⟨inst, hio, hir⟩ := hinst
      obtain ⟨hres, hlp, hfailed, hloaded, hdb⟩ := load_plugin_ok st env name inst hio hir
      rw [hL] at hres hlp hfailed hloaded hdb
      dsimp only at hres hlp hfailed hloaded hdb
      subst hres
      have hred : PluginLoader.loadLoop st env (name :: rest) =
          ((name, inst) ::
             (PluginLoader.loadLoop { st1 with total_loaded := st1.total_loaded + 1 } env rest).1,
           (PluginLoader.loadLoop { st1 with total_loaded := st1.total_loaded + 1 } env rest).2) := by
        rw [PluginLoader.loadLoop, hL]
      obtain ⟨ihf, ihl, ihframe, ihmem⟩ :=
        ih { st1 with total_loaded := st1.total_loaded + 1 } hrest
      rw [hred]
      dsimp only
      refine ⟨?_, ?_, fun k hk => ?_, fun n hn hnone => ?_⟩
      · rw [ihf]
        dsimp only
        rw [hfailed]
        simp [hfail]
      · rw [ihl]
        dsimp only
        rw [hloaded]
        simp [hfail]
        omega
      · have hk1 : k ∉ rest := fun hmem => hk (List.mem_cons_of_mem name hmem)
        have hkn : name ≠ k := fun hEq => hk (hEq ▸ List.mem_cons_self name rest)
        rw [ihframe k hk1]
        dsimp only
        rw [hlp, dictSet_lookup_ne st.loaded_plugins name k inst hkn]
      · rcases List.mem_cons.mp hn with hEq | hmem
        · subst hEq
          rw [ihframe n hni]
          dsimp only
          rw [hlp, dictSet_lookup_self st.loaded_plugins n inst,
            (spec_ok_inst (env n) inst hio hir).2]
        · have hne : name ≠ n := fun hEq => hni (hEq ▸ hmem)
          refine ihmem n hmem ?_
          dsimp only
          rw [hlp, dictSet_lookup_ne st.loaded_plugins name n inst hne, hnone]

/-- C4 counterexample: plugin `"confbad"` raises only while its
persisted configuration is applied (`_load_plugin_config`).  Contrary
to the claim — which lists "configuration" among the steps whose
exception makes `load_plugin` return `None` and records an `error`
status — the exception is swallowed inside `_load_plugin_config`
(logged as a warning): the load succeeds, the instance is registered in
`loaded_plugins`, the persisted status is `active` with no error
message, and `total_failed` stays 0. -/
theorem C4_counterexample :
    (loaderEnvFixture "confbad").configureRaises.isSome = true ∧
    (PluginLoader.load_plugin (LoaderState.mk0 true) loaderEnvFixture "confbad").1 =
      some { iname := "ConfBadPlugin" } ∧
    ((PluginLoader.load_plugin (LoaderState.mk0 true) loaderEnvFixture "confbad").2).total_failed = 0 ∧
    ((PluginLoader.load_plugin (LoaderState.mk0 true) loaderEnvFixture "confbad").2).loaded_plugins.lookup "confbad" =
      some { iname := "ConfBadPlugin" } ∧
    ((PluginLoader.load_plugin (LoaderState.mk0 true) loaderEnvFixture "confbad").2).dbRecords.lookup "confbad" =
      some { status := "active", error_message := none } :=
  ⟨rfl, rfl, rfl, rfl, rfl⟩

/-- C4 (amended): an exception raised during import, class lookup,
instantiation or `initialize()` makes `load_plugin` return `None`
instead of raising, leaves `loaded_plugins` untouched, increments
`plugin_stats.total_failed` by one, and (when a database manager is
bound) persists the plugin's status as `error` with the exception
message.  An exception raised only while loading/applying persisted
configuration is swallowed inside `_load_plugin_config` and does not
fail the load.  In a bulk load over distinct, not-yet-loaded plugin
names, each failing plugin is absent from `loaded_plugins`, every
succeeding plugin is present, and `total_failed` counts exactly the
failures. -/
theorem C4_amended_loader_isolation (env : String → PluginSpec) :
    (∀ (st : LoaderState) (name : String), (env name).fails = true →
       (PluginLoader.load_plugin st env name).1 = none ∧
       ((PluginLoader.load_plugin st env name).2).loaded_plugins = st.loaded_plugins ∧
       ((PluginLoader.load_plugin st env name).2).total_failed = st.total_failed + 1 ∧
       (st.hasDb = true →
          ((PluginLoader.load_plugin st env name).2).dbRecords.lookup name =
            some { status := "error"
                   error_message :=
                     some ("Failed to load plugin " ++ name ++ ": " ++ (env name).failStr) })) ∧
    (∀ (st : LoaderState) (name : String) (inst : PluginInst),
       (env name).importOutcome = .ok inst → (env name).initializeRaises = none →
       (PluginLoader.load_plugin st env name).1 = some inst) ∧
    (∀ (names : List String) (st : LoaderState), names.Nodup →
       (∀ n ∈ names, st.loaded_plugins.lookup n = none) →
       ((PluginLoader.load_all_plugins st env names).2).total_failed =
         st.total_failed + (names.filter (fun n => (env n).fails)).length ∧
       ((PluginLoader.load_all_plugins st env names).2).total_loaded =
         st.total_loaded + (names.filter (fun n => !(env n).fails)).length ∧
       (∀ n ∈ names,
          ((PluginLoader.load_all_plugins st env names).2).loaded_plugins.lookup n =
            (env n).inst)) := by
  refine ⟨fun st name h => ?_, fun st name inst hio hir => ?_,
          fun names st hnd hfresh => ?_⟩
  · obtain ⟨h1, h2, h3, _, _, h6⟩ := load_plugin_fail st env name h
    exact ⟨h1, h2, h3, h6⟩
  · exact (load_plugin_ok st env name inst hio hir).1
  · obtain ⟨hf, hl, _, hmem⟩ := loadLoop_spec env names st hnd
    exact ⟨hf, hl, fun n hn => hmem n hn (hfresh n hn)⟩

theorem C4_witness :
    (["good", "bad"] : List String).Nodup ∧
    (∀ n ∈ (["good", "bad"] : List String),
       (LoaderState.mk0 true).loaded_plugins.lookup n = none) ∧
    ((PluginLoader.load_all_plugins (LoaderState.mk0 true) loaderEnvFixture
        ["good", "bad"]).2).total_failed =
      (LoaderState.mk0 true).total_failed +
        ((["good", "bad"] : List String).filter
          (fun n => (loaderEnvFixture n).fails)).length ∧
    ((PluginLoader.load_all_plugins (LoaderState.mk0 true) loaderEnvFixture
        ["good", "bad"]).2).loaded_plugins.lookup "good" =
      (loaderEnvFixture "good").inst ∧
    ((PluginLoader.load_all_plugins (LoaderState.mk0 true) loaderEnvFixture
        ["good", "bad"]).2).loaded_plugins.lookup "bad" =
      (loaderEnvFixture "bad").inst :=
  ⟨by decide, fun n _ => rfl,
   ((C4_amended_loader_isolation loaderEnvFixture).2.2 ["good", "bad"]
      (LoaderState.mk0 true) (by decide) (fun n _ => rfl)).1,
   ((C4_amended_loader_isolation loaderEnvFixture).2.2 ["good", "bad"]
      (LoaderState.mk0 true) (by decide) (fun n _ => rfl)).2.2 "good"
     (by simp),
   ((C4_amended_loader_isolation loaderEnvFixture).2.2 ["good", "bad"]
      (LoaderState.mk0 true) (by decide) (fun n _ => rfl)).2.2 "bad"
     (by simp)⟩

end Waygate
